import Mathlib

/-!
Verification development for the four-bar linkage server
(`src/server.js`, `src/unnamed/part_000`, `src/unnamed/part_001`).

The repository holds three iterations of the same Express server.  The
variant in `src/unnamed/part_001` is the complete solver described by the
specification: the `atan2`-based quadratic-in-tangent-half-angle solution
with a discriminant guard (null sentinel), output normalization into
`[0, 360)`, and the Grashof classifier.  `src/server.js` contains the same
`grashofCondition`, `normalizeAngle`, `degToRad`, `radToDeg` and the same
K/A/B/C/D/E/F formulas.  The embedding below follows those sources; local
`const` bindings of the JavaScript become top-level definitions so that
theorems can name them.
-/

/-- Result of `grashofCondition` (src/server.js lines 29-38,
src/unnamed/part_001 lines 35-44).  The JavaScript returns the strings
`'Grashof'`, `'Special Grashof'`, `'non-Grashof'`; we model them as an
enumeration. -/
inductive GrashofClass where
  | Grashof
  | SpecialGrashof
  | NonGrashof
deriving DecidableEq, Repr

/-- `const S = Math.min(a, b, c, d)` in `grashofCondition`. -/
def gcS {α : Type} [LinearOrderedField α] (a b c d : α) : α :=
  min a (min b (min c d))

/-- `const L = Math.max(a, b, c, d)` in `grashofCondition`. -/
def gcL {α : Type} [LinearOrderedField α] (a b c d : α) : α :=
  max a (max b (max c d))

/-- `const PQ = (a + b + c + d) - (S + L)` in `grashofCondition`. -/
def gcPQ {α : Type} [LinearOrderedField α] (a b c d : α) : α :=
  (a + b + c + d) - (gcS a b c d + gcL a b c d)

/-- `grashofCondition(a, b, c, d)` from src/server.js lines 29-38 and
src/unnamed/part_001 lines 35-44:

    if (SL < PQ) return 'Grashof';
    if (Math.abs(SL - PQ) < 1e-9) return 'Special Grashof';
    return 'non-Grashof';

The tolerance `1e-9` is the exact rational `1 / 1000000000`.  Stated over
any linear ordered field so that it covers both the real numbers (the
specification's reading) and the rationals (for concrete evaluation). -/
def grashofCondition {α : Type} [LinearOrderedField α] (a b c d : α) : GrashofClass :=
  if gcS a b c d + gcL a b c d < gcPQ a b c d then GrashofClass.Grashof
  else if |gcS a b c d + gcL a b c d - gcPQ a b c d| < 1 / 1000000000 then
    GrashofClass.SpecialGrashof
  else GrashofClass.NonGrashof

/-- `degToRad(deg) = (deg * Math.PI) / 180` (src/server.js lines 11-13). -/
noncomputable def degToRad (deg : ℝ) : ℝ :=
  deg * Real.pi / 180

/-- `radToDeg(rad) = (rad * 180) / Math.PI` (src/server.js lines 16-18). -/
noncomputable def radToDeg (rad : ℝ) : ℝ :=
  rad * 180 / Real.pi

/-- Truncation toward zero, the rounding used by the JavaScript `%`
remainder operator. -/
noncomputable def jsTrunc (x : ℝ) : ℤ :=
  if 0 ≤ x then ⌊x⌋ else ⌈x⌉

/-- The JavaScript remainder `x % y`: `x - y * trunc(x / y)`, whose sign
follows the dividend. -/
noncomputable def jsMod (x y : ℝ) : ℝ :=
  x - y * (jsTrunc (x / y) : ℝ)

/-- `normalizeAngle(angleDeg)` from src/unnamed/part_001 lines 21-24 and
src/server.js lines 113-116:

    let a = angleDeg % 360;
    return a < 0 ? a + 360 : a;
-/
noncomputable def normalizeAngle (angleDeg : ℝ) : ℝ :=
  if jsMod angleDeg 360 < 0 then jsMod angleDeg 360 + 360 else jsMod angleDeg 360

/-- JavaScript `Math.atan2(y, x)`: angle of the point `(x, y)` in
`(-pi, pi]`, with `atan2(0, 0) = 0`. -/
noncomputable def arctan2 (y x : ℝ) : ℝ :=
  if 0 < x then Real.arctan (y / x)
  else if x < 0 then
    (if 0 ≤ y then Real.arctan (y / x) + Real.pi else Real.arctan (y / x) - Real.pi)
  else
    (if 0 < y then Real.pi / 2 else if y < 0 then -(Real.pi / 2) else 0)

/-- `const A = Math.cos(theta2) - K1 - K2 * Math.cos(theta2) + K3` with
`K1 = d / c`, `K2 = d / b`, `K3 = (a**2 - b**2 + c**2 + d**2) / (2*a*c)`
(src/unnamed/part_001 lines 53-59, src/server.js lines 54-63). -/
noncomputable def fourBarA (a b c d theta2_deg : ℝ) : ℝ :=
  Real.cos (degToRad theta2_deg) - d / c - d / b * Real.cos (degToRad theta2_deg) +
    (a ^ 2 - b ^ 2 + c ^ 2 + d ^ 2) / (2 * a * c)

/-- `const B = -2 * Math.sin(theta2)` for the theta4 equation. -/
noncomputable def fourBarB (theta2_deg : ℝ) : ℝ :=
  -2 * Real.sin (degToRad theta2_deg)

/-- `const C = K1 - (K2 - 1) * Math.cos(theta2) + K3`. -/
noncomputable def fourBarC (a b c d theta2_deg : ℝ) : ℝ :=
  d / c - (d / b - 1) * Real.cos (degToRad theta2_deg) +
    (a ^ 2 - b ^ 2 + c ^ 2 + d ^ 2) / (2 * a * c)

/-- `const sqrtVal4 = B*B - 4*A*C`, the theta4 discriminant
(src/unnamed/part_001 line 74). -/
noncomputable def disc4 (a b c d theta2_deg : ℝ) : ℝ :=
  fourBarB theta2_deg * fourBarB theta2_deg -
    4 * fourBarA a b c d theta2_deg * fourBarC a b c d theta2_deg

/-- `const D = Math.cos(theta2) - K4 * Math.cos(theta2) + K5` with
`K4 = d / b`, `K5 = (c**2 - d**2 + a**2 + b**2) / (2*a*b)`
(src/unnamed/part_001 lines 92-98). -/
noncomputable def fourBarD (a b c d theta2_deg : ℝ) : ℝ :=
  Real.cos (degToRad theta2_deg) - d / b * Real.cos (degToRad theta2_deg) +
    (c ^ 2 - d ^ 2 + a ^ 2 + b ^ 2) / (2 * a * b)

/-- `const E = -2 * Math.sin(theta2)` for the theta3 equation. -/
noncomputable def fourBarE (theta2_deg : ℝ) : ℝ :=
  -2 * Real.sin (degToRad theta2_deg)

/-- `const F = K4 - (1 - K4) * Math.cos(theta2) + K5`. -/
noncomputable def fourBarF (a b c d theta2_deg : ℝ) : ℝ :=
  d / b - (1 - d / b) * Real.cos (degToRad theta2_deg) +
    (c ^ 2 - d ^ 2 + a ^ 2 + b ^ 2) / (2 * a * b)

/-- `const sqrtVal3 = E*E - 4*D*F`, the theta3 discriminant. -/
noncomputable def disc3 (a b c d theta2_deg : ℝ) : ℝ :=
  fourBarE theta2_deg * fourBarE theta2_deg -
    4 * fourBarD a b c d theta2_deg * fourBarF a b c d theta2_deg

/-- The theta4 half of `computeFourBar` (src/unnamed/part_001 lines 74-89):

    if (sqrtVal4 < 0) { theta41 = theta42 = null }
    else {
      root4 = sqrt(sqrtVal4);
      theta41 = normalizeAngle(radToDeg(2 * atan2(2*A, -B - root4)));
      theta42 = normalizeAngle(radToDeg(2 * atan2(2*A, -B + root4)));
    }

`none` models the JavaScript `null` sentinel. -/
noncomputable def theta4Pair (a b c d theta2_deg : ℝ) : Option ℝ × Option ℝ :=
  if disc4 a b c d theta2_deg < 0 then (none, none)
  else
    (some (normalizeAngle (radToDeg (2 * arctan2 (2 * fourBarA a b c d theta2_deg)
        (-fourBarB theta2_deg - Real.sqrt (disc4 a b c d theta2_deg))))),
     some (normalizeAngle (radToDeg (2 * arctan2 (2 * fourBarA a b c d theta2_deg)
        (-fourBarB theta2_deg + Real.sqrt (disc4 a b c d theta2_deg))))))

/-- The theta3 half of `computeFourBar` (src/unnamed/part_001 lines 112-127),
symmetric to `theta4Pair` with `D`, `E`, `F`. -/
noncomputable def theta3Pair (a b c d theta2_deg : ℝ) : Option ℝ × Option ℝ :=
  if disc3 a b c d theta2_deg < 0 then (none, none)
  else
    (some (normalizeAngle (radToDeg (2 * arctan2 (2 * fourBarD a b c d theta2_deg)
        (-fourBarE theta2_deg - Real.sqrt (disc3 a b c d theta2_deg))))),
     some (normalizeAngle (radToDeg (2 * arctan2 (2 * fourBarD a b c d theta2_deg)
        (-fourBarE theta2_deg + Real.sqrt (disc3 a b c d theta2_deg))))))

/-- The record returned by `computeFourBar`
(src/unnamed/part_001 lines 130-136). -/
structure FourBarResult where
  theta41 : Option ℝ
  theta42 : Option ℝ
  theta31 : Option ℝ
  theta32 : Option ℝ

/-- `computeFourBar(a, b, c, d, theta2_deg)` from src/unnamed/part_001
lines 49-136 (the same formulas appear in src/server.js lines 44-128). -/
noncomputable def computeFourBar (a b c d theta2_deg : ℝ) : FourBarResult :=
  { theta41 := (theta4Pair a b c d theta2_deg).1
    theta42 := (theta4Pair a b c d theta2_deg).2
    theta31 := (theta3Pair a b c d theta2_deg).1
    theta32 := (theta3Pair a b c d theta2_deg).2 }

/-- Response of the `POST /compute` handler: either the 400 missing-field
rejection or the 200 payload `{grashof, theta41, theta42, theta31, theta32}`
(src/unnamed/part_001 lines 139-168, src/server.js lines 132-157). -/
inductive HandlerResponse where
  | badRequest (error : String)
  | ok (grashof : GrashofClass) (angles : FourBarResult)

/-- The `POST /compute` handler body.  Each request field is `Option ℝ`:
`none` models a field whose value is `null` or `undefined` (exactly the
values caught by the JavaScript `x == null` check); `some v` models a
numeric field, including `0`. -/
noncomputable def handleCompute (a b c d theta2 : Option ℝ) : HandlerResponse :=
  match a, b, c, d, theta2 with
  | some av, some bv, some cv, some dv, some tv =>
      HandlerResponse.ok (grashofCondition av bv cv dv) (computeFourBar av bv cv dv tv)
  | _, _, _, _, _ =>
      HandlerResponse.badRequest "Missing one of the required fields: a, b, c, d, theta2"

/-- Spec-side theta4 discriminant, transcribed from the claim and §4.2 of
the specification: `K1 = d/c`, `K2 = d/b`, `K3 = (a² - b² + c² + d²)/(2ac)`,
`A = cos(theta2) - K1 - K2·cos(theta2) + K3`, `B = -2·sin(theta2)`,
`C = K1 - (K2 - 1)·cos(theta2) + K3`, discriminant `B² - 4AC`, with
`theta2 = theta2_deg · pi / 180`. -/
noncomputable def specDisc4 (a b c d theta2_deg : ℝ) : ℝ :=
  let theta2 := theta2_deg * Real.pi / 180
  let K1 := d / c
  let K2 := d / b
  let K3 := (a ^ 2 - b ^ 2 + c ^ 2 + d ^ 2) / (2 * a * c)
  let A := Real.cos theta2 - K1 - K2 * Real.cos theta2 + K3
  let B := -2 * Real.sin theta2
  let C := K1 - (K2 - 1) * Real.cos theta2 + K3
  B ^ 2 - 4 * A * C

/-- Spec-side open solution for theta4, transcribed from the claim:
`theta4_open = 2·atan2(2A, -B - sqrt(disc))`, converted to degrees and
normalized into `[0, 360)`. -/
noncomputable def specTheta4Open (a b c d theta2_deg : ℝ) : ℝ :=
  let theta2 := theta2_deg * Real.pi / 180
  let K1 := d / c
  let K2 := d / b
  let K3 := (a ^ 2 - b ^ 2 + c ^ 2 + d ^ 2) / (2 * a * c)
  let A := Real.cos theta2 - K1 - K2 * Real.cos theta2 + K3
  let B := -2 * Real.sin theta2
  normalizeAngle (radToDeg (2 * arctan2 (2 * A)
    (-B - Real.sqrt (specDisc4 a b c d theta2_deg))))

/-- Spec-side crossed solution for theta4, transcribed from the claim:
`theta4_crossed = 2·atan2(2A, -B + sqrt(disc))`, converted to degrees and
normalized into `[0, 360)`. -/
noncomputable def specTheta4Crossed (a b c d theta2_deg : ℝ) : ℝ :=
  let theta2 := theta2_deg * Real.pi / 180
  let K1 := d / c
  let K2 := d / b
  let K3 := (a ^ 2 - b ^ 2 + c ^ 2 + d ^ 2) / (2 * a * c)
  let A := Real.cos theta2 - K1 - K2 * Real.cos theta2 + K3
  let B := -2 * Real.sin theta2
  normalizeAngle (radToDeg (2 * arctan2 (2 * A)
    (-B + Real.sqrt (specDisc4 a b c d theta2_deg))))

/-! ### Helper lemmas -/

lemma degToRad_zero : degToRad 0 = 0 := by
  unfold degToRad; ring

lemma degToRad_180 : degToRad 180 = Real.pi := by
  unfold degToRad; ring

lemma degToRad_360 : degToRad 360 = 2 * Real.pi := by
  unfold degToRad; ring

lemma cos_degToRad_360 : Real.cos (degToRad 360) = Real.cos (degToRad 0) := by
  rw [degToRad_360, degToRad_zero, Real.cos_two_pi, Real.cos_zero]

lemma sin_degToRad_360 : Real.sin (degToRad 360) = Real.sin (degToRad 0) := by
  rw [degToRad_360, degToRad_zero, Real.sin_two_pi, Real.sin_zero]

lemma jsMod_range (x : ℝ) : -360 < jsMod x 360 ∧ jsMod x 360 < 360 := by
  unfold jsMod jsTrunc
  rcases le_or_lt 0 x with hx | hx
  · have hq : (0:ℝ) ≤ x / 360 := by positivity
    rw [if_pos hq]
    have h1 : (⌊x / 360⌋ : ℝ) ≤ x / 360 := Int.floor_le _
    have h2 : x / 360 < ⌊x / 360⌋ + 1 := Int.lt_floor_add_one _
    have h360 : (360:ℝ) * (x / 360) = x := by ring
    constructor <;> nlinarith
  · have hq : ¬ (0:ℝ) ≤ x / 360 := by
      simp only [not_le]
      exact div_neg_of_neg_of_pos hx (by norm_num)
    rw [if_neg hq]
    have h1 : x / 360 ≤ (⌈x / 360⌉ : ℝ) := Int.le_ceil _
    have h2 : (⌈x / 360⌉ : ℝ) < x / 360 + 1 := Int.ceil_lt_add_one _
    have h360 : (360:ℝ) * (x / 360) = x := by ring
    constructor <;> nlinarith

lemma jsMod_nonneg_of_nonneg {x : ℝ} (hx : 0 ≤ x) : 0 ≤ jsMod x 360 := by
  unfold jsMod jsTrunc
  have hq : (0:ℝ) ≤ x / 360 := by positivity
  rw [if_pos hq]
  have h1 : (⌊x / 360⌋ : ℝ) ≤ x / 360 := Int.floor_le _
  have h360 : (360:ℝ) * (x / 360) = x := by ring
  nlinarith

lemma normalizeAngle_nonneg (x : ℝ) : 0 ≤ normalizeAngle x := by
  unfold normalizeAngle
  rcases lt_or_le (jsMod x 360) 0 with h | h
  · rw [if_pos h]
    have := (jsMod_range x).1
    linarith
  · rw [if_neg (not_lt.mpr h)]
    exact h

lemma normalizeAngle_lt (x : ℝ) : normalizeAngle x < 360 := by
  unfold normalizeAngle
  rcases lt_or_le (jsMod x 360) 0 with h | h
  · rw [if_pos h]
    linarith
  · rw [if_neg (not_lt.mpr h)]
    exact (jsMod_range x).2

lemma jsMod_of_Ico {w : ℝ} (h0 : 0 ≤ w) (h1 : w < 360) : jsMod w 360 = w := by
  unfold jsMod jsTrunc
  have hq : (0:ℝ) ≤ w / 360 := by positivity
  rw [if_pos hq]
  have : ⌊w / 360⌋ = 0 := by
    rw [Int.floor_eq_zero_iff]
    constructor
    · exact hq
    · rw [div_lt_one (by norm_num : (0:ℝ) < 360)]
      exact h1
  rw [this]
  push_cast
  ring

lemma jsMod_of_Ico2 {w : ℝ} (h0 : 360 ≤ w) (h1 : w < 720) : jsMod w 360 = w - 360 := by
  unfold jsMod jsTrunc
  have hq : (0:ℝ) ≤ w / 360 := by positivity
  rw [if_pos hq]
  have : ⌊w / 360⌋ = 1 := by
    rw [Int.floor_eq_iff]
    constructor
    · push_cast
      rw [le_div_iff₀ (by norm_num : (0:ℝ) < 360)]
      linarith
    · push_cast
      rw [div_lt_iff₀ (by norm_num : (0:ℝ) < 360)]
      linarith
  rw [this]
  push_cast
  ring

lemma normalizeAngle_eq_spec_formula (x : ℝ) :
    normalizeAngle x = jsMod (jsMod x 360 + 360) 360 := by
  obtain ⟨hlo, hhi⟩ := jsMod_range x
  unfold normalizeAngle
  rcases lt_or_le (jsMod x 360) 0 with h | h
  · rw [if_pos h]
    have hw := jsMod_of_Ico (w := jsMod x 360 + 360) (by linarith) (by linarith)
    rw [hw]
  · rw [if_neg (not_lt.mpr h)]
    have hw := jsMod_of_Ico2 (w := jsMod x 360 + 360) (by linarith) (by linarith)
    rw [hw]
    ring

lemma gc_congr {α : Type} [LinearOrderedField α] {a b c d e f g h : α}
    (hS : gcS a b c d = gcS e f g h) (hL : gcL a b c d = gcL e f g h)
    (hsum : a + b + c + d = e + f + g + h) :
    grashofCondition a b c d = grashofCondition e f g h := by
  unfold grashofCondition gcPQ
  rw [hS, hL, hsum]

/-- The conjunction of all 23 nontrivial reorderings of the four link
lengths, each asserting that `grashofCondition` is unchanged. -/
def gcPermInvariantAt {α : Type} [LinearOrderedField α] (a b c d : α) : Prop :=
  grashofCondition a b c d = grashofCondition a b d c ∧
  grashofCondition a b c d = grashofCondition a c b d ∧
  grashofCondition a b c d = grashofCondition a c d b ∧
  grashofCondition a b c d = grashofCondition a d b c ∧
  grashofCondition a b c d = grashofCondition a d c b ∧
  grashofCondition a b c d = grashofCondition b a c d ∧
  grashofCondition a b c d = grashofCondition b a d c ∧
  grashofCondition a b c d = grashofCondition b c a d ∧
  grashofCondition a b c d = grashofCondition b c d a ∧
  grashofCondition a b c d = grashofCondition b d a c ∧
  grashofCondition a b c d = grashofCondition b d c a ∧
  grashofCondition a b c d = grashofCondition c a b d ∧
  grashofCondition a b c d = grashofCondition c a d b ∧
  grashofCondition a b c d = grashofCondition c b a d ∧
  grashofCondition a b c d = grashofCondition c b d a ∧
  grashofCondition a b c d = grashofCondition c d a b ∧
  grashofCondition a b c d = grashofCondition c d b a ∧
  grashofCondition a b c d = grashofCondition d a b c ∧
  grashofCondition a b c d = grashofCondition d a c b ∧
  grashofCondition a b c d = grashofCondition d b a c ∧
  grashofCondition a b c d = grashofCondition d b c a ∧
  grashofCondition a b c d = grashofCondition d c a b ∧
  grashofCondition a b c d = grashofCondition d c b a

/-- C3: for all four finite real lengths `a, b, c, d`, the classifier
computes `S = min(a,b,c,d)`, `L = max(a,b,c,d)`,
`PQ = (a+b+c+d) - S - L`, and returns Grashof when `S+L < PQ`,
SpecialGrashof when (otherwise) `|S+L - PQ| < 1e-9`, and NonGrashof
otherwise. -/
theorem grashofCondition_spec_cases (a b c d : ℝ) :
    grashofCondition a b c d =
      (if min a (min b (min c d)) + max a (max b (max c d)) <
          (a + b + c + d) - min a (min b (min c d)) - max a (max b (max c d)) then
        GrashofClass.Grashof
      else if |min a (min b (min c d)) + max a (max b (max c d)) -
          ((a + b + c + d) - min a (min b (min c d)) - max a (max b (max c d)))| <
          1 / 1000000000 then
        GrashofClass.SpecialGrashof
      else GrashofClass.NonGrashof) := by
  simp only [grashofCondition, gcS, gcL, gcPQ, sub_sub]

/-- C9: the classifier checks the strict inequality before the tolerance
band: whenever `S + L < PQ` it returns Grashof, even when
`|S+L - PQ| < 1e-9`, so the SpecialGrashof tolerance only absorbs the side
where `S+L >= PQ`. -/
theorem grashofCondition_strict_before_tolerance (a b c d : ℝ)
    (h : min a (min b (min c d)) + max a (max b (max c d)) <
      (a + b + c + d) - (min a (min b (min c d)) + max a (max b (max c d)))) :
    grashofCondition a b c d = GrashofClass.Grashof := by
  unfold grashofCondition
  rw [if_pos]
  exact h

/-- Witness for C9 at `a = 1, b = 2, c = 3/2, d = 3/2 + 1e-10`: here
`S + L = 3 < PQ = 3 + 1e-10` while `|S + L - PQ| = 1e-10 < 1e-9`, and the
classifier still answers Grashof. -/
theorem grashofCondition_strict_before_tolerance_witness :
    min (1:ℝ) (min 2 (min (3/2) (3/2 + 1/10000000000))) +
        max (1:ℝ) (max 2 (max (3/2) (3/2 + 1/10000000000))) <
      ((1:ℝ) + 2 + 3/2 + (3/2 + 1/10000000000)) -
        (min (1:ℝ) (min 2 (min (3/2) (3/2 + 1/10000000000))) +
         max (1:ℝ) (max 2 (max (3/2) (3/2 + 1/10000000000)))) ∧
    |min (1:ℝ) (min 2 (min (3/2) (3/2 + 1/10000000000))) +
        max (1:ℝ) (max 2 (max (3/2) (3/2 + 1/10000000000))) -
      (((1:ℝ) + 2 + 3/2 + (3/2 + 1/10000000000)) -
        (min (1:ℝ) (min 2 (min (3/2) (3/2 + 1/10000000000))) +
         max (1:ℝ) (max 2 (max (3/2) (3/2 + 1/10000000000)))))| < 1 / 1000000000 ∧
    grashofCondition (1:ℝ) 2 (3/2) (3/2 + 1/10000000000) = GrashofClass.Grashof := by
  refine ⟨?_, ?_, ?_⟩
  · norm_num [min_def, max_def]
  · norm_num [min_def, max_def, abs_lt]
  · exact grashofCondition_strict_before_tolerance 1 2 (3/2) (3/2 + 1/10000000000)
      (by norm_num [min_def, max_def])

set_option maxHeartbeats 2000000 in
/-- C6: for all positive `a, b, c, d`, the Grashof classification is
invariant under every permutation of the four lengths. -/
theorem grashofCondition_perm_invariant (a b c d : ℝ)
    (ha : 0 < a) (hb : 0 < b) (hc : 0 < c) (hd : 0 < d) :
    gcPermInvariantAt a b c d := by
  refine ⟨?_, ?_, ?_, ?_, ?_, ?_, ?_, ?_, ?_, ?_, ?_, ?_, ?_, ?_, ?_, ?_, ?_,
    ?_, ?_, ?_, ?_, ?_, ?_⟩ <;>
    apply gc_congr <;>
    first
      | simp only [gcS, min_comm, min_left_comm]
      | simp only [gcL, max_comm, max_left_comm]
      | ring1

/-- Witness for C6 at the concrete positive lengths `1, 2, 3, 4`. -/
theorem grashofCondition_perm_invariant_witness :
    gcPermInvariantAt (1:ℝ) 2 3 4 :=
  grashofCondition_perm_invariant 1 2 3 4 (by norm_num) (by norm_num)
    (by norm_num) (by norm_num)

lemma specDisc4_eq_disc4 (a b c d theta2_deg : ℝ) :
    specDisc4 a b c d theta2_deg = disc4 a b c d theta2_deg := by
  simp only [specDisc4, disc4, fourBarA, fourBarB, fourBarC, degToRad]
  ring

/-- C1: for every positive `a, b, c, d` and every `theta2_deg`, when the
theta4 discriminant `B^2 - 4AC` (with `K1 = d/c`, `K2 = d/b`,
`K3 = (a^2 - b^2 + c^2 + d^2)/(2ac)`, `A = cos(theta2) - K1 - K2 cos(theta2) + K3`,
`B = -2 sin(theta2)`, `C = K1 - (K2 - 1) cos(theta2) + K3`) is nonnegative,
the solver returns `theta4_open = 2 atan2(2A, -B - sqrt(disc))` and
`theta4_crossed = 2 atan2(2A, -B + sqrt(disc))`, converted to degrees and
normalized into `[0, 360)`. -/
theorem computeFourBar_theta4_closed_form (a b c d theta2_deg : ℝ)
    (ha : 0 < a) (hb : 0 < b) (hc : 0 < c) (hd : 0 < d)
    (hdisc : 0 ≤ specDisc4 a b c d theta2_deg) :
    (computeFourBar a b c d theta2_deg).theta41 =
        some (specTheta4Open a b c d theta2_deg) ∧
      (computeFourBar a b c d theta2_deg).theta42 =
        some (specTheta4Crossed a b c d theta2_deg) := by
  have hnd : ¬ disc4 a b c d theta2_deg < 0 := by
    rw [← specDisc4_eq_disc4]
    exact not_lt.mpr hdisc
  constructor
  · show (theta4Pair a b c d theta2_deg).1 = some (specTheta4Open a b c d theta2_deg)
    unfold theta4Pair
    rw [if_neg hnd, ← specDisc4_eq_disc4]
    rfl
  · show (theta4Pair a b c d theta2_deg).2 = some (specTheta4Crossed a b c d theta2_deg)
    unfold theta4Pair
    rw [if_neg hnd, ← specDisc4_eq_disc4]
    rfl

/-- Witness for C1 at `a = b = c = d = 1`, `theta2 = 0`: there
`A = 0`, `B = 0`, `C = 2`, so the discriminant is `0 ≥ 0`. -/
theorem computeFourBar_theta4_closed_form_witness :
    0 ≤ specDisc4 1 1 1 1 0 ∧
      ((computeFourBar 1 1 1 1 0).theta41 = some (specTheta4Open 1 1 1 1 0) ∧
       (computeFourBar 1 1 1 1 0).theta42 = some (specTheta4Crossed 1 1 1 1 0)) := by
  have h : 0 ≤ specDisc4 1 1 1 1 0 := by
    rw [specDisc4_eq_disc4]
    norm_num [disc4, fourBarA, fourBarB, fourBarC, degToRad_zero, Real.cos_zero,
      Real.sin_zero]
  exact ⟨h, computeFourBar_theta4_closed_form 1 1 1 1 0 (by norm_num) (by norm_num)
    (by norm_num) (by norm_num) h⟩

/-- C2: whenever the theta4 discriminant `B^2 - 4AC` is negative, both
theta4 outputs are the no-solution sentinel (`none`, modelling the
JavaScript `null`), not an error and not a numeric value. -/
theorem computeFourBar_neg_disc_gives_none (a b c d theta2_deg : ℝ)
    (h : disc4 a b c d theta2_deg < 0) :
    (computeFourBar a b c d theta2_deg).theta41 = none ∧
      (computeFourBar a b c d theta2_deg).theta42 = none := by
  constructor
  · show (theta4Pair a b c d theta2_deg).1 = none
    unfold theta4Pair
    rw [if_pos h]
  · show (theta4Pair a b c d theta2_deg).2 = none
    unfold theta4Pair
    rw [if_pos h]

/-- Witness for C2 at the strongly non-Grashof geometry
`a = 10, b = 1, c = 1, d = 10` with input angle `theta2 = 180`: there
`A = 9`, `B = 0`, `C = 29`, so the discriminant is `-1044 < 0`. -/
theorem computeFourBar_neg_disc_gives_none_witness :
    disc4 10 1 1 10 180 < 0 ∧
      ((computeFourBar 10 1 1 10 180).theta41 = none ∧
       (computeFourBar 10 1 1 10 180).theta42 = none) := by
  have h : disc4 10 1 1 10 180 < 0 := by
    norm_num [disc4, fourBarA, fourBarB, fourBarC, degToRad_180, Real.cos_pi,
      Real.sin_pi]
  exact ⟨h, computeFourBar_neg_disc_gives_none 10 1 1 10 180 h⟩

/-- C8: when the theta4 discriminant is exactly zero, the open and crossed
theta4 solutions coincide, both equal to the normalized degree value of
`2 * atan2(2A, -B)`. -/
theorem computeFourBar_zero_disc_coincide (a b c d theta2_deg : ℝ)
    (h : disc4 a b c d theta2_deg = 0) :
    (computeFourBar a b c d theta2_deg).theta41 =
        (computeFourBar a b c d theta2_deg).theta42 ∧
      (computeFourBar a b c d theta2_deg).theta41 =
        some (normalizeAngle (radToDeg (2 * arctan2 (2 * fourBarA a b c d theta2_deg)
          (-fourBarB theta2_deg)))) := by
  have hnd : ¬ disc4 a b c d theta2_deg < 0 := by
    rw [h]
    exact lt_irrefl 0
  have h1 : theta4Pair a b c d theta2_deg =
      (some (normalizeAngle (radToDeg (2 * arctan2 (2 * fourBarA a b c d theta2_deg)
          (-fourBarB theta2_deg)))),
       some (normalizeAngle (radToDeg (2 * arctan2 (2 * fourBarA a b c d theta2_deg)
          (-fourBarB theta2_deg))))) := by
    unfold theta4Pair
    rw [if_neg hnd, h, Real.sqrt_zero, sub_zero, add_zero]
  constructor
  · show (theta4Pair a b c d theta2_deg).1 = (theta4Pair a b c d theta2_deg).2
    rw [h1]
  · show (theta4Pair a b c d theta2_deg).1 = _
    rw [h1]

/-- Witness for C8 at `a = b = c = d = 1`, `theta2 = 0`, where the
discriminant is exactly `0`. -/
theorem computeFourBar_zero_disc_coincide_witness :
    disc4 1 1 1 1 0 = 0 ∧
      ((computeFourBar 1 1 1 1 0).theta41 = (computeFourBar 1 1 1 1 0).theta42 ∧
       (computeFourBar 1 1 1 1 0).theta41 =
         some (normalizeAngle (radToDeg (2 * arctan2 (2 * fourBarA 1 1 1 1 0)
           (-fourBarB 0))))) := by
  have h : disc4 1 1 1 1 0 = 0 := by
    norm_num [disc4, fourBarA, fourBarB, fourBarC, degToRad_zero, Real.cos_zero,
      Real.sin_zero]
  exact ⟨h, computeFourBar_zero_disc_coincide 1 1 1 1 0 h⟩

lemma fourBarA_period (a b c d : ℝ) : fourBarA a b c d 360 = fourBarA a b c d 0 := by
  unfold fourBarA
  rw [cos_degToRad_360]

lemma fourBarB_period : fourBarB 360 = fourBarB 0 := by
  unfold fourBarB
  rw [sin_degToRad_360]

lemma fourBarC_period (a b c d : ℝ) : fourBarC a b c d 360 = fourBarC a b c d 0 := by
  unfold fourBarC
  rw [cos_degToRad_360]

lemma fourBarD_period (a b c d : ℝ) : fourBarD a b c d 360 = fourBarD a b c d 0 := by
  unfold fourBarD
  rw [cos_degToRad_360]

lemma fourBarE_period : fourBarE 360 = fourBarE 0 := by
  unfold fourBarE
  rw [sin_degToRad_360]

lemma fourBarF_period (a b c d : ℝ) : fourBarF a b c d 360 = fourBarF a b c d 0 := by
  unfold fourBarF
  rw [cos_degToRad_360]

lemma disc4_period (a b c d : ℝ) : disc4 a b c d 360 = disc4 a b c d 0 := by
  unfold disc4
  rw [fourBarA_period, fourBarB_period, fourBarC_period]

lemma disc3_period (a b c d : ℝ) : disc3 a b c d 360 = disc3 a b c d 0 := by
  unfold disc3
  rw [fourBarD_period, fourBarE_period, fourBarF_period]

lemma theta4Pair_period (a b c d : ℝ) : theta4Pair a b c d 360 = theta4Pair a b c d 0 := by
  unfold theta4Pair
  rw [fourBarA_period, fourBarB_period, disc4_period]

lemma theta3Pair_period (a b c d : ℝ) : theta3Pair a b c d 360 = theta3Pair a b c d 0 := by
  unfold theta3Pair
  rw [fourBarD_period, fourBarE_period, disc3_period]

/-- C7: for every positive `a, b, c, d`, solving with `theta2_deg = 0` and
with `theta2_deg = 360` yields identical normalized outputs: the solver is
periodic in the input angle with period 360 degrees. -/
theorem computeFourBar_periodic_360 (a b c d : ℝ)
    (ha : 0 < a) (hb : 0 < b) (hc : 0 < c) (hd : 0 < d) :
    computeFourBar a b c d 0 = computeFourBar a b c d 360 := by
  unfold computeFourBar
  rw [theta4Pair_period, theta3Pair_period]

/-- Witness for C7 at the concrete positive lengths `1, 2, 3, 4`. -/
theorem computeFourBar_periodic_360_witness :
    computeFourBar 1 2 3 4 0 = computeFourBar 1 2 3 4 360 :=
  computeFourBar_periodic_360 1 2 3 4 (by norm_num) (by norm_num) (by norm_num)
    (by norm_num)

/-- C5: for every finite input, every numeric angle the solver outputs lies
in `[0, 360)`, and the code's normalization agrees with the spec formula
`((x mod 360) + 360) mod 360` (with the JavaScript truncated remainder). -/
theorem computeFourBar_outputs_normalized (a b c d theta2_deg : ℝ) :
    ((computeFourBar a b c d theta2_deg).theta41 = none ∨
      ∃ v, (computeFourBar a b c d theta2_deg).theta41 = some v ∧ 0 ≤ v ∧ v < 360) ∧
    ((computeFourBar a b c d theta2_deg).theta42 = none ∨
      ∃ v, (computeFourBar a b c d theta2_deg).theta42 = some v ∧ 0 ≤ v ∧ v < 360) ∧
    ((computeFourBar a b c d theta2_deg).theta31 = none ∨
      ∃ v, (computeFourBar a b c d theta2_deg).theta31 = some v ∧ 0 ≤ v ∧ v < 360) ∧
    ((computeFourBar a b c d theta2_deg).theta32 = none ∨
      ∃ v, (computeFourBar a b c d theta2_deg).theta32 = some v ∧ 0 ≤ v ∧ v < 360) ∧
    ∀ x : ℝ, normalizeAngle x = jsMod (jsMod x 360 + 360) 360 := by
  refine ⟨?_, ?_, ?_, ?_, fun x => normalizeAngle_eq_spec_formula x⟩
  · show (theta4Pair a b c d theta2_deg).1 = none ∨
      ∃ v, (theta4Pair a b c d theta2_deg).1 = some v ∧ 0 ≤ v ∧ v < 360
    unfold theta4Pair
    rcases lt_or_le (disc4 a b c d theta2_deg) 0 with h | h
    · rw [if_pos h]
      exact Or.inl rfl
    · rw [if_neg (not_lt.mpr h)]
      exact Or.inr ⟨_, rfl, normalizeAngle_nonneg _, normalizeAngle_lt _⟩
  · show (theta4Pair a b c d theta2_deg).2 = none ∨
      ∃ v, (theta4Pair a b c d theta2_deg).2 = some v ∧ 0 ≤ v ∧ v < 360
    unfold theta4Pair
    rcases lt_or_le (disc4 a b c d theta2_deg) 0 with h | h
    · rw [if_pos h]
      exact Or.inl rfl
    · rw [if_neg (not_lt.mpr h)]
      exact Or.inr ⟨_, rfl, normalizeAngle_nonneg _, normalizeAngle_lt _⟩
  · show (theta3Pair a b c d theta2_deg).1 = none ∨
      ∃ v, (theta3Pair a b c d theta2_deg).1 = some v ∧ 0 ≤ v ∧ v < 360
    unfold theta3Pair
    rcases lt_or_le (disc3 a b c d theta2_deg) 0 with h | h
    · rw [if_pos h]
      exact Or.inl rfl
    · rw [if_neg (not_lt.mpr h)]
      exact Or.inr ⟨_, rfl, normalizeAngle_nonneg _, normalizeAngle_lt _⟩
  · show (theta3Pair a b c d theta2_deg).2 = none ∨
      ∃ v, (theta3Pair a b c d theta2_deg).2 = some v ∧ 0 ≤ v ∧ v < 360
    unfold theta3Pair
    rcases lt_or_le (disc3 a b c d theta2_deg) 0 with h | h
    · rw [if_pos h]
      exact Or.inl rfl
    · rw [if_neg (not_lt.mpr h)]
      exact Or.inr ⟨_, rfl, normalizeAngle_nonneg _, normalizeAngle_lt _⟩

/-- C4 (code side): the embedded solver has no error outcome at all.  At
`b = 0` or `c = 0` it still returns a plain `FourBarResult` record: the code
contains no guard and signals no DomainError, contrary to the claim (the
divisions `d / c`, `d / b` are performed unconditionally at
src/server.js lines 54-56 and src/unnamed/part_001 lines 53-55). -/
theorem computeFourBar_zero_link_no_guard (a b c d theta2_deg : ℝ)
    (h : b = 0 ∨ c = 0) :
    ∃ r : FourBarResult, computeFourBar a b c d theta2_deg = r :=
  ⟨_, rfl⟩

/-- Witness for the C4 code-side theorem at `a = 1, b = 0, c = 1, d = 1,
theta2 = 0`. -/
theorem computeFourBar_zero_link_no_guard_witness :
    ∃ r : FourBarResult, computeFourBar 1 0 1 1 0 = r :=
  computeFourBar_zero_link_no_guard 1 0 1 1 0 (Or.inl rfl)

/-- C10: the request handler rejects with the 400 missing-field error
exactly those requests in which at least one of `a, b, c, d, theta2` is
`null` or `undefined` (modelled as `none`); any present numeric values,
including `0`, reach the solver with no positivity check. -/
theorem handleCompute_validation (a b c d theta2 : Option ℝ) :
    (handleCompute a b c d theta2 =
        HandlerResponse.badRequest
          "Missing one of the required fields: a, b, c, d, theta2" ↔
      a = none ∨ b = none ∨ c = none ∨ d = none ∨ theta2 = none) ∧
    ∀ av bv cv dv tv : ℝ,
      handleCompute (some av) (some bv) (some cv) (some dv) (some tv) =
        HandlerResponse.ok (grashofCondition av bv cv dv)
          (computeFourBar av bv cv dv tv) := by
  constructor
  · rcases a with _ | av <;> rcases b with _ | bv <;> rcases c with _ | cv <;>
      rcases d with _ | dv <;> rcases theta2 with _ | tv <;>
      simp [handleCompute]
  · intro av bv cv dv tv
    rfl
